import Mathlib

/-!
# JFinanzas: verification of the core data model and operations

Shallow embedding of the personal-finance tracker's core (database.py and the
budget-classification logic of main.py).  Monetary amounts (REAL columns) are
modelled as rationals, INTEGER columns as integers, row ids as naturals
(SQLite primary keys), and each table as a list of rows.  Operations that in
the source return a boolean success flag (or fall through returning a falsy
None) are modelled as returning the updated store together with a Bool that
is true exactly on the success path.
-/

namespace JFinanzas

/-- Row of the movimientos table: an income/expense transaction. -/
structure Movimiento where
  id : ℕ
  tipo : String
  categoria : String
  monto : ℚ
  descripcion : String
  fecha : String
deriving DecidableEq

/-- Row of the suscripciones table. -/
structure Suscripcion where
  id : ℕ
  nombre : String
  monto : ℚ
  dia_cobro : ℤ
  activa : Bool
deriving DecidableEq

/-- Row of the prestamos table: a loan. -/
structure Prestamo where
  id : ℕ
  banco : String
  monto_total : ℚ
  monto_pagado : ℚ
  cuota_mensual : ℚ
  dia_pago : ℤ
  fecha_inicio : String
  activo : Bool
deriving DecidableEq

/-- Row of the ahorros table: a savings goal. -/
structure Ahorro where
  id : ℕ
  nombre : String
  meta : ℚ
  monto_actual : ℚ
  fecha_inicio : String
  completado : Bool
deriving DecidableEq

/-- Row of the creditos table: an installment credit purchase. -/
structure Credito where
  id : ℕ
  descripcion : String
  banco : String
  monto_total : ℚ
  meses_sin_intereses : ℤ
  cuota_mensual : ℚ
  meses_pagados : ℤ
  fecha_compra : String
  tasa_interes : ℚ
  pagado : Bool
deriving DecidableEq

/-- Row of the cuentas_bancarias table: a bank account. -/
structure CuentaBancaria where
  id : ℕ
  nombre_banco : String
  tipo_cuenta : String
  saldo : ℚ
  limite_credito : ℚ
  fecha_creacion : String
  activa : Bool
deriving DecidableEq

/-- Row of the transferencias table: an append-only transfer record. -/
structure Transferencia where
  id : ℕ
  cuenta_origen : ℕ
  cuenta_destino : ℕ
  monto : ℚ
  fecha : String
  descripcion : String
deriving DecidableEq

/-- Row of the presupuestos table: a per-category budget limit. -/
structure Presupuesto where
  id : ℕ
  categoria : String
  limite : ℚ
  mes : ℤ
  anio : ℤ
deriving DecidableEq

/-- The whole store: one list per table, plus the configuracion
key/value table. -/
structure Database where
  movimientos : List Movimiento
  suscripciones : List Suscripcion
  prestamos : List Prestamo
  ahorros : List Ahorro
  creditos : List Credito
  cuentas_bancarias : List CuentaBancaria
  presupuestos : List Presupuesto
  transferencias : List Transferencia
  configuracion : List (String × String)
deriving DecidableEq

/-- The empty store (all tables empty). -/
def emptyDatabase : Database := ⟨[], [], [], [], [], [], [], [], []⟩

/-- AUTOINCREMENT id assignment: one more than the largest id in use. -/
def nextId (ids : List ℕ) : ℕ := ids.foldr max 0 + 1

-- Configuration methods

/-- Database.obtener_config: value stored under a key, if any. -/
def obtener_config (config : List (String × String)) (clave : String) :
    Option String :=
  (config.find? (fun kv => kv.1 == clave)).map (fun kv => kv.2)

/-- Database.verificar_pin.  The sha256-hexdigest function is passed as a
parameter hashFn (hashing itself is outside the embedding).  A falsy stored
value (absent row, modelling Python None, or the empty string) makes the
check succeed unconditionally. -/
def verificar_pin (hashFn : String → String)
    (config : List (String × String)) (pin : String) : Bool :=
  match obtener_config config "pin_hash" with
  | none => true
  | some pin_guardado =>
    if pin_guardado = "" then true else hashFn pin == pin_guardado

-- Aggregation: overall balance

/-- Database.obtener_balance: (income total, expense total, net). -/
def obtener_balance (db : Database) : ℚ × ℚ × ℚ :=
  let datos := db.movimientos.map (fun m => (m.tipo, m.monto))
  let ingresos := ((datos.filter (fun d => d.1 == "ingreso")).map
    (fun d => d.2)).sum
  let gastos := ((datos.filter (fun d => d.1 == "gasto")).map
    (fun d => d.2)).sum
  (ingresos, gastos, ingresos - gastos)

-- Budget evaluation (crear_vista_presupuestos in main.py)

/-- Classification of a category against its budget. -/
inductive EstadoPresupuesto where
  | sin_limite
  | dentro
  | cerca
  | excedido
deriving DecidableEq

/-- Budget classification from crear_vista_presupuestos: the first budget row
matching the category gives the limit (0 when absent); with a positive limit
the percentage spent/limit*100 selects Excedido at 100 or more, Cerca del
limite at 80 or more, Dentro del presupuesto below; otherwise the view shows
Sin limite.  The spent amount is the input gasto_actual (the view obtains it
from obtener_gasto_categoria_mes). -/
def estadoPresupuesto (presupuestos : List Presupuesto) (categoria : String)
    (gasto_actual : ℚ) : EstadoPresupuesto :=
  let limite :=
    match presupuestos.find? (fun p => p.categoria == categoria) with
    | some p => p.limite
    | none => 0
  if 0 < limite then
    let porcentaje := gasto_actual / limite * 100
    if 100 ≤ porcentaje then .excedido
    else if 80 ≤ porcentaje then .cerca
    else .dentro
  else .sin_limite

-- Bank account methods

/-- Database.actualizar_saldo_cuenta: set the balance of the account with
the given id (SQL UPDATE on the primary key). -/
def actualizar_saldo_cuenta (db : Database) (id_cuenta : ℕ)
    (nuevo_saldo : ℚ) : Database × Bool :=
  let filas := db.cuentas_bancarias.map (fun c =>
    if c.id == id_cuenta then { c with saldo := nuevo_saldo } else c)
  ({ db with cuentas_bancarias := filas }, true)

/-- Database.agregar_monto_cuenta: credit an account; a missing row means
the guarded block is skipped and the method falls through (falsy result,
store untouched). -/
def agregar_monto_cuenta (db : Database) (id_cuenta : ℕ) (monto : ℚ) :
    Database × Bool :=
  match db.cuentas_bancarias.find? (fun c => c.id == id_cuenta) with
  | none => (db, false)
  | some c => actualizar_saldo_cuenta db id_cuenta (c.saldo + monto)

/-- Database.retirar_monto_cuenta: debit an account, same shape as the
credit operation. -/
def retirar_monto_cuenta (db : Database) (id_cuenta : ℕ) (monto : ℚ) :
    Database × Bool :=
  match db.cuentas_bancarias.find? (fun c => c.id == id_cuenta) with
  | none => (db, false)
  | some c => actualizar_saldo_cuenta db id_cuenta (c.saldo - monto)

/-- Balance of an account as observed through the store (first row with the
given id, ids being unique primary keys). -/
def obtener_saldo (db : Database) (id_cuenta : ℕ) : Option ℚ :=
  (db.cuentas_bancarias.find? (fun c => c.id == id_cuenta)).map
    (fun c => c.saldo)

/-- Database.realizar_transferencia: debit the source, credit the
destination (both results ignored, as in the source), then append one
Transferencia row and report success.  The timestamp is a parameter
standing for datetime.now. -/
def realizar_transferencia (db : Database)
    (cuenta_origen cuenta_destino : ℕ) (monto : ℚ)
    (fecha descripcion : String) : Database × Bool :=
  let db1 := (retirar_monto_cuenta db cuenta_origen monto).1
  let db2 := (agregar_monto_cuenta db1 cuenta_destino monto).1
  let t : Transferencia :=
    { id := nextId (db2.transferencias.map (fun t => t.id)),
      cuenta_origen := cuenta_origen, cuenta_destino := cuenta_destino,
      monto := monto, fecha := fecha, descripcion := descripcion }
  ({ db2 with transferencias := db2.transferencias ++ [t] }, true)

-- Loan methods

/-- Payment transition applied by Database.registrar_pago_prestamo to the
row found under the given id: accumulate the payment and, when the total is
reached or passed, clamp to the total and deactivate. -/
def pagoPrestamoRow (p : Prestamo) (monto_pago : ℚ) : Prestamo :=
  let nuevo_monto_pagado := p.monto_pagado + monto_pago
  if p.monto_total ≤ nuevo_monto_pagado then
    { p with monto_pagado := p.monto_total, activo := false }
  else
    { p with monto_pagado := nuevo_monto_pagado }

/-- Database.registrar_pago_prestamo: look the loan up by id; absent row
falls through with a falsy result and no write; otherwise update the (by
primary key unique) matching row with the payment transition. -/
def registrar_pago_prestamo (db : Database) (id_prestamo : ℕ)
    (monto_pago : ℚ) : Database × Bool :=
  match db.prestamos.find? (fun p => p.id == id_prestamo) with
  | none => (db, false)
  | some _ =>
    let filas := db.prestamos.map (fun p =>
      if p.id == id_prestamo then pagoPrestamoRow p monto_pago else p)
    ({ db with prestamos := filas }, true)

-- Savings goal methods

/-- Deposit transition applied by Database.agregar_monto_ahorro: accumulate
and, when the goal is reached or passed, clamp to the goal and mark
completed. -/
def depositoAhorroRow (a : Ahorro) (monto : ℚ) : Ahorro :=
  let nuevo_monto := a.monto_actual + monto
  if a.meta ≤ nuevo_monto then
    { a with monto_actual := a.meta, completado := true }
  else
    { a with monto_actual := nuevo_monto }

/-- Database.agregar_monto_ahorro. -/
def agregar_monto_ahorro (db : Database) (id_ahorro : ℕ) (monto : ℚ) :
    Database × Bool :=
  match db.ahorros.find? (fun a => a.id == id_ahorro) with
  | none => (db, false)
  | some _ =>
    let filas := db.ahorros.map (fun a =>
      if a.id == id_ahorro then depositoAhorroRow a monto else a)
    ({ db with ahorros := filas }, true)

/-- Withdrawal transition applied by Database.retirar_monto_ahorro: floor
the new amount at 0; the completado flag is not touched. -/
def retiroAhorroRow (a : Ahorro) (monto : ℚ) : Ahorro :=
  { a with monto_actual := max 0 (a.monto_actual - monto) }

/-- Database.retirar_monto_ahorro. -/
def retirar_monto_ahorro (db : Database) (id_ahorro : ℕ) (monto : ℚ) :
    Database × Bool :=
  match db.ahorros.find? (fun a => a.id == id_ahorro) with
  | none => (db, false)
  | some _ =>
    let filas := db.ahorros.map (fun a =>
      if a.id == id_ahorro then retiroAhorroRow a monto else a)
    ({ db with ahorros := filas }, true)

-- Credit purchase methods

/-- Installment computation shared by Database.agregar_credito and
Database.editar_credito.  With a positive rate the annuity formula is
applied; a zero denominator there (term 0) raises in the source, so the
enclosing method catches it and stores nothing: modelled as none.  With a
non-positive rate the principal is divided by the term when the term is
positive, else the principal itself is used. -/
def cuotaMensualCredito (monto_total : ℚ) (meses_plazo : ℤ)
    (tasa_interes : ℚ) : Option ℚ :=
  if 0 < tasa_interes then
    let tasa_mensual := tasa_interes / 100
    let factor : ℚ := (1 + tasa_mensual) ^ meses_plazo
    if factor - 1 = 0 then none
    else some (monto_total * (tasa_mensual * factor) / (factor - 1))
  else
    some (if 0 < meses_plazo then monto_total / (meses_plazo : ℚ)
          else monto_total)

/-- Database.agregar_credito: compute the installment (a raised exception
leaves the store untouched with a falsy result) and insert the new row with
zero months paid.  The purchase date is a parameter standing for
datetime.now. -/
def agregar_credito (db : Database) (descripcion banco : String)
    (monto_total : ℚ) (meses_plazo : ℤ) (tasa_interes : ℚ)
    (fecha_compra : String) : Database × Bool :=
  match cuotaMensualCredito monto_total meses_plazo tasa_interes with
  | none => (db, false)
  | some cuota =>
    let c : Credito :=
      { id := nextId (db.creditos.map (fun c => c.id)),
        descripcion := descripcion, banco := banco,
        monto_total := monto_total, meses_sin_intereses := meses_plazo,
        cuota_mensual := cuota, meses_pagados := 0,
        fecha_compra := fecha_compra, tasa_interes := tasa_interes,
        pagado := false }
    ({ db with creditos := db.creditos ++ [c] }, true)

/-- Field update applied by Database.editar_credito to the row with the
edited id. -/
def editarCreditoRow (descripcion banco : String) (monto_total : ℚ)
    (meses_plazo : ℤ) (cuota tasa_interes : ℚ) (c : Credito) : Credito :=
  { c with descripcion := descripcion, banco := banco,
           monto_total := monto_total, meses_sin_intereses := meses_plazo,
           cuota_mensual := cuota, tasa_interes := tasa_interes }

/-- Database.editar_credito: recompute the installment (a raised exception
leaves the store untouched with a falsy result) and rewrite the matching
row. -/
def editar_credito (db : Database) (id_cred : ℕ)
    (descripcion banco : String) (monto_total : ℚ) (meses_plazo : ℤ)
    (tasa_interes : ℚ) : Database × Bool :=
  match cuotaMensualCredito monto_total meses_plazo tasa_interes with
  | none => (db, false)
  | some cuota =>
    let filas := db.creditos.map (fun c =>
      if c.id == id_cred then
        editarCreditoRow descripcion banco monto_total meses_plazo cuota
          tasa_interes c
      else c)
    ({ db with creditos := filas }, true)

/-- Monthly-payment transition applied by Database.registrar_pago_credito:
advance one month and, when the term is reached or passed, clamp to the
term and mark paid. -/
def pagoCreditoRow (c : Credito) : Credito :=
  let nuevos_meses_pagados := c.meses_pagados + 1
  if c.meses_sin_intereses ≤ nuevos_meses_pagados then
    { c with meses_pagados := c.meses_sin_intereses, pagado := true }
  else
    { c with meses_pagados := nuevos_meses_pagados }

/-- Database.registrar_pago_credito. -/
def registrar_pago_credito (db : Database) (id_credito : ℕ) :
    Database × Bool :=
  match db.creditos.find? (fun c => c.id == id_credito) with
  | none => (db, false)
  | some _ =>
    let filas := db.creditos.map (fun c =>
      if c.id == id_credito then pagoCreditoRow c else c)
    ({ db with creditos := filas }, true)

-- Backup and restore

/-- The exported backup, table by table.  Export serializes each row of the
seven exported tables (transfers and configuration are not exported); on
restore each row object either decodes to a typed row (some) or is
malformed/unresolvable (none). -/
structure DatosExport where
  movimientos : List (Option Movimiento)
  suscripciones : List (Option Suscripcion)
  prestamos : List (Option Prestamo)
  ahorros : List (Option Ahorro)
  creditos : List (Option Credito)
  cuentas_bancarias : List (Option CuentaBancaria)
  presupuestos : List (Option Presupuesto)
deriving DecidableEq

/-- Database.exportar_datos: every row of the seven exported tables,
serialized in table order. -/
def exportar_datos (db : Database) : DatosExport :=
  { movimientos := db.movimientos.map some,
    suscripciones := db.suscripciones.map some,
    prestamos := db.prestamos.map some,
    ahorros := db.ahorros.map some,
    creditos := db.creditos.map some,
    cuentas_bancarias := db.cuentas_bancarias.map some,
    presupuestos := db.presupuestos.map some }

/-- SQL INSERT OR REPLACE keyed on the primary-key id: replace the matching
rows when the id is present, else append. -/
def insertOrReplace {α : Type} (getId : α → ℕ) (l : List α) (x : α) :
    List α :=
  if l.any (fun y => getId y == getId x) then
    l.map (fun y => if getId y == getId x then x else y)
  else l ++ [x]

/-- Import one table: each well-formed row is inserted (INSERT OR REPLACE);
a malformed row raises inside its own try/except and is skipped
individually. -/
def cargarTabla {α : Type} (getId : α → ℕ) (acc : List α)
    (rows : List (Option α)) : List α :=
  rows.foldl (fun cur r =>
    match r with
    | none => cur
    | some x => insertOrReplace getId cur x) acc

/-- Database.importar_datos: import every exported table into the store;
tables not present in the backup (transfers, configuration) are left
alone. -/
def importar_datos (db : Database) (d : DatosExport) : Database × Bool :=
  ({ db with
      movimientos := cargarTabla (fun m => m.id) db.movimientos
        d.movimientos,
      suscripciones := cargarTabla (fun s => s.id) db.suscripciones
        d.suscripciones,
      prestamos := cargarTabla (fun p => p.id) db.prestamos d.prestamos,
      ahorros := cargarTabla (fun a => a.id) db.ahorros d.ahorros,
      creditos := cargarTabla (fun c => c.id) db.creditos d.creditos,
      cuentas_bancarias := cargarTabla (fun c => c.id) db.cuentas_bancarias
        d.cuentas_bancarias,
      presupuestos := cargarTabla (fun p => p.id) db.presupuestos
        d.presupuestos }, true)

/-! ## Theorems -/

/-- C10: for every input string pin, if no pin_hash configuration entry
exists in the store, PIN verification returns true — the PIN gate accepts
any input (including the empty string) until a PIN has been saved at least
once. -/
theorem C10_pin_gate_open_without_hash (hashFn : String → String)
    (config : List (String × String)) (pin : String)
    (h : obtener_config config "pin_hash" = none) :
    verificar_pin hashFn config pin = true := by
  unfold verificar_pin
  rw [h]

theorem C10_pin_gate_open_without_hash_witness :
    verificar_pin id [] "" = true ∧
    verificar_pin id [("tema", "dark")] "1234" = true :=
  ⟨C10_pin_gate_open_without_hash id [] "" rfl,
   C10_pin_gate_open_without_hash id [("tema", "dark")] "1234" rfl⟩

/-- C9: for every id not present in the store, each payoff-state-machine
operation (loan payment, credit monthly payment, savings deposit) returns a
non-success result rather than throwing, and leaves every row of the store
unchanged. -/
theorem C9_missing_id_rejected :
    (∀ (db : Database) (i : ℕ) (m : ℚ),
        db.prestamos.find? (fun p => p.id == i) = none →
        registrar_pago_prestamo db i m = (db, false)) ∧
    (∀ (db : Database) (i : ℕ),
        db.creditos.find? (fun c => c.id == i) = none →
        registrar_pago_credito db i = (db, false)) ∧
    (∀ (db : Database) (i : ℕ) (m : ℚ),
        db.ahorros.find? (fun a => a.id == i) = none →
        agregar_monto_ahorro db i m = (db, false)) := by
  refine ⟨fun db i m h => ?_, fun db i h => ?_, fun db i m h => ?_⟩
  · unfold registrar_pago_prestamo; rw [h]
  · unfold registrar_pago_credito; rw [h]
  · unfold agregar_monto_ahorro; rw [h]

theorem C9_missing_id_rejected_witness :
    registrar_pago_prestamo emptyDatabase 1 5 = (emptyDatabase, false) ∧
    registrar_pago_credito emptyDatabase 1 = (emptyDatabase, false) ∧
    agregar_monto_ahorro emptyDatabase 1 5 = (emptyDatabase, false) :=
  ⟨C9_missing_id_rejected.1 emptyDatabase 1 5 rfl,
   C9_missing_id_rejected.2.1 emptyDatabase 1 rfl,
   C9_missing_id_rejected.2.2 emptyDatabase 1 5 rfl⟩

/-- C4: overall_balance returns (income_total, expense_total, net) where
income_total sums the amounts of income-kind transactions, expense_total
sums the amounts of expense-kind transactions, net is their difference,
and an empty store yields (0, 0, 0). -/
theorem C4_overall_balance (db : Database) :
    (obtener_balance db).1 =
      ((db.movimientos.filter (fun m => m.tipo == "ingreso")).map
        (fun m => m.monto)).sum ∧
    (obtener_balance db).2.1 =
      ((db.movimientos.filter (fun m => m.tipo == "gasto")).map
        (fun m => m.monto)).sum ∧
    (obtener_balance db).2.2 =
      (obtener_balance db).1 - (obtener_balance db).2.1 ∧
    (db.movimientos = [] → obtener_balance db = (0, 0, 0)) := by
  refine ⟨?_, ?_, rfl, fun h => ?_⟩
  · simp [obtener_balance, List.filter_map, List.map_map,
      Function.comp_def]
  · simp [obtener_balance, List.filter_map, List.map_map,
      Function.comp_def]
  · simp [obtener_balance, h]

theorem C4_overall_balance_witness :
    obtener_balance emptyDatabase = (0, 0, 0) :=
  (C4_overall_balance emptyDatabase).2.2.2 rfl

/-- C5: a withdrawal from a savings goal sets the new current amount to
max(0, current - amount) — withdrawing more than the current amount leaves
exactly 0, never a negative value — and leaves the completed flag
unchanged; on an existing id the store applies exactly this transition to
the matching row. -/
theorem C5_savings_withdrawal_floor :
    (∀ (a : Ahorro) (m : ℚ),
        (retiroAhorroRow a m).monto_actual = max 0 (a.monto_actual - m)) ∧
    (∀ (a : Ahorro) (m : ℚ),
        (retiroAhorroRow a m).completado = a.completado) ∧
    (∀ (a : Ahorro) (m : ℚ), a.monto_actual < m →
        (retiroAhorroRow a m).monto_actual = 0) ∧
    (∀ (db : Database) (i : ℕ) (m : ℚ) (a : Ahorro),
        db.ahorros.find? (fun x => x.id == i) = some a →
        (retirar_monto_ahorro db i m).2 = true ∧
        (retirar_monto_ahorro db i m).1.ahorros =
          db.ahorros.map (fun x =>
            if x.id == i then retiroAhorroRow x m else x)) := by
  refine ⟨fun a m => rfl, fun a m => rfl, fun a m h => ?_,
    fun db i m a h => ?_⟩
  · show max 0 (a.monto_actual - m) = 0
    exact max_eq_left (sub_nonpos.mpr h.le)
  · unfold retirar_monto_ahorro
    rw [h]
    exact ⟨rfl, rfl⟩

theorem C5_savings_withdrawal_floor_witness :
    (retiroAhorroRow ⟨1, "viaje", 10, 4, "f", false⟩ 7).monto_actual = 0 ∧
    (retirar_monto_ahorro
        { emptyDatabase with ahorros := [⟨1, "viaje", 10, 4, "f", false⟩] }
        1 7).2 = true :=
  ⟨C5_savings_withdrawal_floor.2.2.1 ⟨1, "viaje", 10, 4, "f", false⟩ 7
      (by decide),
   (C5_savings_withdrawal_floor.2.2.2
      { emptyDatabase with ahorros := [⟨1, "viaje", 10, 4, "f", false⟩] }
      1 7 ⟨1, "viaje", 10, 4, "f", false⟩ rfl).1⟩

-- Helper lemmas for the loan payment transition

lemma pagoPrestamoRow_monto_total (p : Prestamo) (m : ℚ) :
    (pagoPrestamoRow p m).monto_total = p.monto_total := by
  simp only [pagoPrestamoRow,
    apply_ite (fun q : Prestamo => q.monto_total), ite_self]

lemma pagoPrestamoRow_monto_pagado (p : Prestamo) (m : ℚ) :
    (pagoPrestamoRow p m).monto_pagado =
      min (p.monto_pagado + m) p.monto_total := by
  simp only [pagoPrestamoRow,
    apply_ite (fun q : Prestamo => q.monto_pagado)]
  split_ifs with h
  · exact (min_eq_right h).symm
  · exact (min_eq_left (le_of_not_le h)).symm

lemma pagoPrestamoRow_activo (p : Prestamo) (m : ℚ) :
    (pagoPrestamoRow p m).activo =
      if p.monto_total ≤ p.monto_pagado + m then false else p.activo := by
  simp only [pagoPrestamoRow,
    apply_ite (fun q : Prestamo => q.activo)]

lemma foldl_pago_monto_total :
    ∀ (l : List ℚ) (p : Prestamo),
      (l.foldl pagoPrestamoRow p).monto_total = p.monto_total
  | [], _ => rfl
  | m :: l, p => by
    rw [List.foldl_cons, foldl_pago_monto_total l,
      pagoPrestamoRow_monto_total]

lemma foldl_pago_monto_pagado (l : List ℚ) :
    ∀ p : Prestamo, (∀ m ∈ l, 0 ≤ m) →
      p.monto_pagado ≤ p.monto_total →
      (l.foldl pagoPrestamoRow p).monto_pagado =
        min (p.monto_pagado + l.sum) p.monto_total := by
  induction l with
  | nil => intro p _ hp; simp [min_eq_left hp]
  | cons m l ih =>
    intro p hm hp
    have hm0 : 0 ≤ m := hm m (List.mem_cons_self m l)
    have hml : ∀ x ∈ l, 0 ≤ x := fun x hx => hm x (List.mem_cons_of_mem m hx)
    have hsum : 0 ≤ l.sum := List.sum_nonneg hml
    have hinv : (pagoPrestamoRow p m).monto_pagado ≤
        (pagoPrestamoRow p m).monto_total := by
      rw [pagoPrestamoRow_monto_total, pagoPrestamoRow_monto_pagado]
      exact min_le_right _ _
    rw [List.foldl_cons, ih _ hml hinv, pagoPrestamoRow_monto_pagado,
      pagoPrestamoRow_monto_total, List.sum_cons]
    rcases le_total (p.monto_pagado + m) p.monto_total with h | h
    · rw [min_eq_left h, add_assoc]
    · rw [min_eq_right h,
        min_eq_right (le_add_of_nonneg_right hsum), eq_comm,
        min_eq_right (by linarith)]

lemma pagoPrestamoRow_activo_inv (p : Prestamo) (m : ℚ)
    (_h : p.activo = true → p.monto_pagado < p.monto_total) :
    (pagoPrestamoRow p m).activo = true →
      (pagoPrestamoRow p m).monto_pagado <
        (pagoPrestamoRow p m).monto_total := by
  rw [pagoPrestamoRow_monto_total, pagoPrestamoRow_monto_pagado,
    pagoPrestamoRow_activo]
  split_ifs with hc
  · intro hfalse; exact absurd hfalse (by simp)
  · intro _
    exact lt_of_le_of_lt (min_le_left _ _) (lt_of_not_le hc)

lemma foldl_pago_activo_inv (l : List ℚ) :
    ∀ p : Prestamo, (p.activo = true → p.monto_pagado < p.monto_total) →
      (l.foldl pagoPrestamoRow p).activo = true →
        (l.foldl pagoPrestamoRow p).monto_pagado <
          (l.foldl pagoPrestamoRow p).monto_total := by
  induction l with
  | nil => intro p h; exact h
  | cons m l ih =>
    intro p h
    rw [List.foldl_cons]
    exact ih _ (pagoPrestamoRow_activo_inv p m h)

/-- C2: each loan payment adds the amount and clamps at the principal,
deactivating the loan exactly when the accumulated amount reaches or
passes the principal; the paid amount never exceeds the principal; and a
fresh loan whose (non-negative) payments sum to exactly the principal ends
inactive with the paid amount equal to the principal. -/
theorem C2_loan_payment_clamp :
    (∀ (p : Prestamo) (m : ℚ),
        (pagoPrestamoRow p m).monto_pagado =
          min (p.monto_pagado + m) p.monto_total) ∧
    (∀ (p : Prestamo) (m : ℚ),
        (pagoPrestamoRow p m).activo =
          if p.monto_total ≤ p.monto_pagado + m then false
          else p.activo) ∧
    (∀ (p : Prestamo) (m : ℚ),
        (pagoPrestamoRow p m).monto_pagado ≤ p.monto_total) ∧
    (∀ (p : Prestamo) (pagos : List ℚ),
        p.monto_pagado = 0 → 0 < p.monto_total →
        (∀ m ∈ pagos, 0 ≤ m) → pagos.sum = p.monto_total →
        (pagos.foldl pagoPrestamoRow p).monto_pagado = p.monto_total ∧
        (pagos.foldl pagoPrestamoRow p).activo = false) := by
  refine ⟨pagoPrestamoRow_monto_pagado, pagoPrestamoRow_activo,
    fun p m => ?_, fun p pagos h0 hpos hm hsum => ?_⟩
  · rw [pagoPrestamoRow_monto_pagado]
    exact min_le_right _ _
  · have hpag := foldl_pago_monto_pagado pagos p hm (by rw [h0]; exact hpos.le)
    rw [h0, zero_add, hsum, min_self] at hpag
    refine ⟨hpag, ?_⟩
    have htot := foldl_pago_monto_total pagos p
    cases hb : (pagos.foldl pagoPrestamoRow p).activo with
    | false => rfl
    | true =>
      have hlt := foldl_pago_activo_inv pagos p
        (fun _ => by rw [h0]; exact hpos) hb
      rw [hpag, htot] at hlt
      exact absurd hlt (lt_irrefl _)

theorem C2_loan_payment_clamp_witness :
    (([5] : List ℚ).foldl pagoPrestamoRow
        ⟨1, "Banco", 5, 0, 1, 1, "f", true⟩).monto_pagado =
      (⟨1, "Banco", 5, 0, 1, 1, "f", true⟩ : Prestamo).monto_total ∧
    (([5] : List ℚ).foldl pagoPrestamoRow
        ⟨1, "Banco", 5, 0, 1, 1, "f", true⟩).activo = false :=
  C2_loan_payment_clamp.2.2.2 ⟨1, "Banco", 5, 0, 1, 1, "f", true⟩ [5]
    rfl (by decide) (by decide) (by simp)

-- Helper lemma for the credit monthly-payment transition

lemma iterate_pagoCredito_lt (k : ℕ) :
    ∀ c : Credito, c.meses_pagados = 0 →
      (k : ℤ) < c.meses_sin_intereses →
      pagoCreditoRow^[k] c = { c with meses_pagados := (k : ℤ) } := by
  induction k with
  | zero =>
    intro c h0 _
    rw [Function.iterate_zero, id]
    cases c
    simp_all
  | succ k ih =>
    intro c h0 hk
    have hk' : (k : ℤ) < c.meses_sin_intereses := by push_cast at hk ⊢; linarith
    rw [Function.iterate_succ_apply', ih c h0 hk']
    unfold pagoCreditoRow
    rw [if_neg (by push_cast at hk ⊢; linarith)]
    have : ((k + 1 : ℕ) : ℤ) = (k : ℤ) + 1 := by push_cast; ring
    rw [this]

/-- C3: every credit monthly payment preserves months_paid at most
term_months; from an unpaid row, paid turns true exactly when months_paid
reaches the term; and a credit purchase starting at zero months paid is,
after exactly term_months payments, paid with months_paid equal to the
term. -/
theorem C3_credit_monthly_payments :
    (∀ c : Credito,
        (pagoCreditoRow c).meses_pagados ≤ c.meses_sin_intereses) ∧
    (∀ c : Credito, c.pagado = false →
        ((pagoCreditoRow c).pagado = true ↔
          c.meses_sin_intereses ≤ c.meses_pagados + 1)) ∧
    (∀ (c : Credito) (n : ℕ), c.meses_pagados = 0 → 0 < n →
        c.meses_sin_intereses = (n : ℤ) →
        (pagoCreditoRow^[n] c).pagado = true ∧
        (pagoCreditoRow^[n] c).meses_pagados = (n : ℤ)) := by
  refine ⟨fun c => ?_, fun c hc => ?_, fun c n h0 hn hmeses => ?_⟩
  · simp only [pagoCreditoRow,
      apply_ite (fun x : Credito => x.meses_pagados)]
    split_ifs with h
    · exact le_refl _
    · exact (lt_of_not_le h).le
  · simp only [pagoCreditoRow, apply_ite (fun x : Credito => x.pagado)]
    split_ifs with h
    · exact iff_of_true rfl h
    · exact iff_of_false (by simp [hc]) h
  · cases n with
    | zero => exact absurd hn (lt_irrefl 0)
    | succ k =>
      have hlt : (k : ℤ) < c.meses_sin_intereses := by
        rw [hmeses]; push_cast; linarith
      rw [Function.iterate_succ_apply', iterate_pagoCredito_lt k c h0 hlt]
      unfold pagoCreditoRow
      rw [if_pos (by rw [hmeses]; push_cast; linarith)]
      exact ⟨rfl, hmeses⟩

theorem C3_credit_monthly_payments_witness :
    (pagoCreditoRow^[2] ⟨1, "tv", "Banco", 100, 2, 50, 0, "f", 0,
        false⟩).pagado = true ∧
    (pagoCreditoRow^[2] ⟨1, "tv", "Banco", 100, 2, 50, 0, "f", 0,
        false⟩).meses_pagados = ((2 : ℕ) : ℤ) :=
  C3_credit_monthly_payments.2.2 ⟨1, "tv", "Banco", 100, 2, 50, 0, "f", 0,
    false⟩ 2 rfl (by decide) (by decide)

/-- C6: the budget evaluation reports sin_limite when no budget row exists
for the category; otherwise, for the stored (positive) limit, with the
spent/limit ratio it reports excedido iff the ratio is at least 1, cerca
iff the ratio is at least 0.8 and below 1, and dentro iff the ratio is
below 0.8. -/
theorem C6_budget_status_thresholds :
    (∀ (ps : List Presupuesto) (cat : String) (g : ℚ),
        ps.find? (fun p => p.categoria == cat) = none →
        estadoPresupuesto ps cat g = .sin_limite) ∧
    (∀ (ps : List Presupuesto) (cat : String) (g : ℚ) (p : Presupuesto),
        ps.find? (fun p => p.categoria == cat) = some p →
        0 < p.limite →
        ((estadoPresupuesto ps cat g = .excedido ↔ 1 ≤ g / p.limite) ∧
          (estadoPresupuesto ps cat g = .cerca ↔
            (4 / 5 : ℚ) ≤ g / p.limite ∧ g / p.limite < 1) ∧
          (estadoPresupuesto ps cat g = .dentro ↔
            g / p.limite < 4 / 5))) := by
  constructor
  · intro ps cat g h
    simp [estadoPresupuesto, h]
  · intro ps cat g p h hl
    have hr100 : (100 : ℚ) ≤ g / p.limite * 100 ↔ 1 ≤ g / p.limite := by
      constructor <;> intro hx <;> nlinarith
    have hr80 : (80 : ℚ) ≤ g / p.limite * 100 ↔
        (4 / 5 : ℚ) ≤ g / p.limite := by
      constructor <;> intro hx <;> nlinarith
    simp only [estadoPresupuesto, h]
    rw [if_pos hl]
    split_ifs with h1 h2
    · exact ⟨iff_of_true rfl (hr100.mp h1),
        iff_of_false (by simp) (fun hx => absurd (hr100.mp h1)
          (not_le.mpr hx.2)),
        iff_of_false (by simp) (fun hx => absurd (hr100.mp h1)
          (not_le.mpr (hx.trans (by norm_num))))⟩
    · refine ⟨iff_of_false (by simp) (fun hx => h1 (hr100.mpr hx)),
        iff_of_true rfl ⟨hr80.mp h2, ?_⟩,
        iff_of_false (by simp) (fun hx => absurd (hr80.mp h2)
          (not_le.mpr hx))⟩
      have := not_le.mp h1
      nlinarith
    · have hlt80 : g / p.limite < 4 / 5 := by
        have := not_le.mp h2
        nlinarith
      exact ⟨iff_of_false (by simp)
          (fun hx => absurd hlt80 (not_lt.mpr (le_trans (by norm_num) hx))),
        iff_of_false (by simp) (fun hx => absurd hlt80 (not_lt.mpr hx.1)),
        iff_of_true rfl hlt80⟩

theorem C6_budget_status_thresholds_witness :
    estadoPresupuesto [] "Comida" 50 = .sin_limite ∧
    (estadoPresupuesto [⟨1, "Comida", 100, 1, 2024⟩] "Comida" 80 = .cerca ↔
      (4 / 5 : ℚ) ≤ 80 / (⟨1, "Comida", 100, 1, 2024⟩ :
        Presupuesto).limite ∧
      80 / (⟨1, "Comida", 100, 1, 2024⟩ : Presupuesto).limite < 1) :=
  ⟨C6_budget_status_thresholds.1 [] "Comida" 50 rfl,
   (C6_budget_status_thresholds.2 [⟨1, "Comida", 100, 1, 2024⟩] "Comida" 80
      ⟨1, "Comida", 100, 1, 2024⟩ rfl (by decide)).2.1⟩

-- Helper lemma for the annuity denominator

lemma annuity_denominator_ne_zero (r : ℚ) (hr : 0 < r) (n : ℤ)
    (hn : n ≠ 0) : (1 + r / 100) ^ n - 1 ≠ 0 := by
  have ha : 1 < 1 + r / 100 := by
    have := div_pos hr (by norm_num : (0 : ℚ) < 100)
    linarith
  rcases lt_or_gt_of_ne hn with h | h
  · intro hc
    have h1 : (1 + r / 100) ^ n = 1 := by linarith
    have h2 := zpow_lt_one_of_neg₀ ha h
    linarith
  · intro hc
    have h1 : (1 + r / 100) ^ n = 1 := by linarith
    have h2 := one_lt_zpow₀ ha h
    linarith

/-- C1 (amended): with a zero rate the stored installment is
principal/term for a positive term and the principal itself for a
non-positive term; with a positive rate and nonzero term it is the annuity
formula with r = rate/100 and n = term; with a positive rate and zero term
the computation raises, nothing is stored, and the operation fails.
Creation and edit store exactly the computed installment. -/
theorem C1_installment_formula :
    (∀ (p : ℚ) (n : ℤ), 0 < n →
        cuotaMensualCredito p n 0 = some (p / (n : ℚ))) ∧
    (∀ (p : ℚ) (n : ℤ), n ≤ 0 → cuotaMensualCredito p n 0 = some p) ∧
    (∀ (p : ℚ) (n : ℤ) (r : ℚ), 0 < r → n ≠ 0 →
        cuotaMensualCredito p n r =
          some (p * ((r / 100) * (1 + r / 100) ^ n) /
            ((1 + r / 100) ^ n - 1))) ∧
    (∀ (p r : ℚ), 0 < r → cuotaMensualCredito p 0 r = none) ∧
    (∀ (db : Database) (d b : String) (m : ℚ) (n : ℤ) (t : ℚ)
        (f : String) (cuota : ℚ),
        cuotaMensualCredito m n t = some cuota →
        (agregar_credito db d b m n t f).1.creditos =
          db.creditos ++
            [{ id := nextId (db.creditos.map (fun c => c.id)),
               descripcion := d, banco := b, monto_total := m,
               meses_sin_intereses := n, cuota_mensual := cuota,
               meses_pagados := 0, fecha_compra := f, tasa_interes := t,
               pagado := false }]) ∧
    (∀ (db : Database) (i : ℕ) (d b : String) (m : ℚ) (n : ℤ) (t : ℚ)
        (cuota : ℚ),
        cuotaMensualCredito m n t = some cuota →
        (editar_credito db i d b m n t).1.creditos =
          db.creditos.map (fun c =>
            if c.id == i then editarCreditoRow d b m n cuota t c
            else c)) := by
  refine ⟨fun p n hn => ?_, fun p n hn => ?_, fun p n r hr hn => ?_,
    fun p r hr => ?_, fun db d b m n t f cuota hc => ?_,
    fun db i d b m n t cuota hc => ?_⟩
  · simp only [cuotaMensualCredito]
    rw [if_neg (lt_irrefl 0), if_pos hn]
  · simp only [cuotaMensualCredito]
    rw [if_neg (lt_irrefl 0), if_neg (not_lt.mpr hn)]
  · simp only [cuotaMensualCredito]
    rw [if_pos hr, if_neg (annuity_denominator_ne_zero r hr n hn)]
  · simp only [cuotaMensualCredito]
    rw [if_pos hr, if_pos (by rw [zpow_zero]; ring)]
  · unfold agregar_credito
    rw [hc]
  · unfold editar_credito
    rw [hc]

/-- C1 counterexample to the claim as frozen: with a positive rate the
fallback case "principal itself when term_months <= 0" does not hold — at
principal 100, term -1, rate 1 the code stores the annuity value -100, not
100 — and at a positive rate with term 0 the computation raises and
nothing is stored at all. -/
theorem C1_installment_formula_counterexample :
    cuotaMensualCredito 100 (-1) 1 = some (-100) ∧
    ((-100 : ℚ) ≠ 100) ∧
    cuotaMensualCredito 100 0 1 = none := by
  refine ⟨?_, by norm_num, ?_⟩ <;> norm_num [cuotaMensualCredito]

theorem C1_installment_formula_witness :
    cuotaMensualCredito 1200 12 0 = some (1200 / ((12 : ℤ) : ℚ)) ∧
    cuotaMensualCredito 1200 12 1 =
      some (1200 * ((1 / 100) * (1 + 1 / 100) ^ (12 : ℤ)) /
        ((1 + 1 / 100) ^ (12 : ℤ) - 1)) :=
  ⟨C1_installment_formula.1 1200 12 (by decide),
   C1_installment_formula.2.2.1 1200 12 1 (by decide) (by decide)⟩

-- Helper lemma: balance updates keep ids, so lookups commute with them

lemma find?_map_update (l : List CuentaBancaria) (i j : ℕ) (v : ℚ) :
    (l.map (fun c => if c.id == i then { c with saldo := v } else c)).find?
        (fun c => c.id == j) =
      (l.find? (fun c => c.id == j)).map
        (fun c => if c.id == i then { c with saldo := v } else c) := by
  rw [List.find?_map]
  have hpred : ((fun c : CuentaBancaria => c.id == j) ∘ fun c =>
      if c.id == i then { c with saldo := v } else c) =
      fun c : CuentaBancaria => c.id == j := by
    funext c
    by_cases h : c.id == i <;> simp [Function.comp, h]
  rw [hpred]

/-- C7 (amended): for two distinct accounts both present in the store, a
transfer reports success, the source balance decreases by the amount, the
destination balance increases by the amount, and exactly one Transfer
record referencing both accounts is appended. -/
theorem C7_transfer_success_effects (db : Database) (o d : ℕ) (m : ℚ)
    (fecha desc : String) (a b : CuentaBancaria) (hod : o ≠ d)
    (ha : db.cuentas_bancarias.find? (fun c => c.id == o) = some a)
    (hb : db.cuentas_bancarias.find? (fun c => c.id == d) = some b) :
    (realizar_transferencia db o d m fecha desc).2 = true ∧
    obtener_saldo (realizar_transferencia db o d m fecha desc).1 o =
      some (a.saldo - m) ∧
    obtener_saldo (realizar_transferencia db o d m fecha desc).1 d =
      some (b.saldo + m) ∧
    (realizar_transferencia db o d m fecha desc).1.transferencias =
      db.transferencias ++
        [{ id := nextId (db.transferencias.map (fun t => t.id)),
           cuenta_origen := o, cuenta_destino := d, monto := m,
           fecha := fecha, descripcion := desc }] := by
  have haid : a.id = o := by simpa using List.find?_some ha
  have hbid : b.id = d := by simpa using List.find?_some hb
  have hbo : (b.id == o) = false := by
    rw [hbid]; exact beq_eq_false_iff_ne.mpr (Ne.symm hod)
  have had : (a.id == d) = false := by
    rw [haid]; exact beq_eq_false_iff_ne.mpr hod
  have hao : (a.id == o) = true := by rw [haid]; exact beq_self_eq_true o
  have hfind1 : (db.cuentas_bancarias.map (fun c => if c.id == o then { c with saldo := a.saldo - m } else c)).find? (fun c => c.id == d) = some b := by
    rw [find?_map_update, hb, Option.map_some', hbo]
    rfl
  have hfind2 : (db.cuentas_bancarias.map (fun c => if c.id == o then { c with saldo := a.saldo - m } else c)).find? (fun c => c.id == o) = some { a with saldo := a.saldo - m } := by
    rw [find?_map_update, ha, Option.map_some', hao]
    rfl
  have hret : retirar_monto_cuenta db o m = ({ db with cuentas_bancarias := db.cuentas_bancarias.map (fun c => if c.id == o then { c with saldo := a.saldo - m } else c) }, true) := by
    simp only [retirar_monto_cuenta, actualizar_saldo_cuenta, ha]
  have hagr : agregar_monto_cuenta { db with cuentas_bancarias := db.cuentas_bancarias.map (fun c => if c.id == o then { c with saldo := a.saldo - m } else c) } d m = ({ db with cuentas_bancarias := (db.cuentas_bancarias.map (fun c => if c.id == o then { c with saldo := a.saldo - m } else c)).map (fun c => if c.id == d then { c with saldo := b.saldo + m } else c) }, true) := by
    simp only [agregar_monto_cuenta, actualizar_saldo_cuenta, hfind1]
  have hreal : realizar_transferencia db o d m fecha desc = ({ db with cuentas_bancarias := (db.cuentas_bancarias.map (fun c => if c.id == o then { c with saldo := a.saldo - m } else c)).map (fun c => if c.id == d then { c with saldo := b.saldo + m } else c), transferencias := db.transferencias ++ [{ id := nextId (db.transferencias.map (fun t => t.id)), cuenta_origen := o, cuenta_destino := d, monto := m, fecha := fecha, descripcion := desc }] }, true) := by
    simp only [realizar_transferencia, hret, hagr]
  rw [hreal]
  refine ⟨rfl, ?_, ?_, rfl⟩
  · simp only [obtener_saldo]
    rw [find?_map_update (db.cuentas_bancarias.map (fun c => if c.id == o then { c with saldo := a.saldo - m } else c)) d o (b.saldo + m), hfind2]
    simp [haid, hod]
  · simp only [obtener_saldo]
    rw [find?_map_update (db.cuentas_bancarias.map (fun c => if c.id == o then { c with saldo := a.saldo - m } else c)) d d (b.saldo + m), hfind1]
    simp [hbid]

/-- C7 counterexample to the claim as frozen: the transfer operation also
reports success when source and destination are the same account; there
the balance is left unchanged — not decreased by the (nonzero) amount —
so the claim fails without the distinctness/existence qualification. -/
theorem C7_transfer_success_effects_counterexample :
    (realizar_transferencia
        { emptyDatabase with
            cuentas_bancarias := [⟨1, "Banco", "debito", 100, 0, "f",
              true⟩] } 1 1 5 "f" "").2 = true ∧
    obtener_saldo (realizar_transferencia
        { emptyDatabase with
            cuentas_bancarias := [⟨1, "Banco", "debito", 100, 0, "f",
              true⟩] } 1 1 5 "f" "").1 1 = some 100 ∧
    ((100 : ℚ) ≠ 100 - 5) := by
  refine ⟨rfl, ?_, by norm_num⟩
  norm_num [realizar_transferencia, retirar_monto_cuenta,
    agregar_monto_cuenta, actualizar_saldo_cuenta, obtener_saldo,
    emptyDatabase, List.find?]

theorem C7_transfer_success_effects_witness :
    (realizar_transferencia
        { emptyDatabase with
            cuentas_bancarias := [⟨1, "A", "debito", 100, 0, "f", true⟩,
              ⟨2, "B", "debito", 30, 0, "f", true⟩] }
        1 2 5 "f" "").2 = true ∧
    obtener_saldo (realizar_transferencia
        { emptyDatabase with
            cuentas_bancarias := [⟨1, "A", "debito", 100, 0, "f", true⟩,
              ⟨2, "B", "debito", 30, 0, "f", true⟩] }
        1 2 5 "f" "").1 1 =
      some ((⟨1, "A", "debito", 100, 0, "f", true⟩ :
        CuentaBancaria).saldo - 5) :=
  have h := C7_transfer_success_effects
    { emptyDatabase with
        cuentas_bancarias := [⟨1, "A", "debito", 100, 0, "f", true⟩,
          ⟨2, "B", "debito", 30, 0, "f", true⟩] }
    1 2 5 "f" "" ⟨1, "A", "debito", 100, 0, "f", true⟩
    ⟨2, "B", "debito", 30, 0, "f", true⟩ (by decide) rfl rfl
  ⟨h.1, h.2.1⟩

-- Helper lemmas for the backup round trip

lemma cargarTabla_skip_none {α : Type} (getId : α → ℕ) (acc : List α)
    (l1 l2 : List (Option α)) :
    cargarTabla getId acc (l1 ++ none :: l2) =
      cargarTabla getId acc (l1 ++ l2) := by
  unfold cargarTabla
  rw [List.foldl_append, List.foldl_append, List.foldl_cons]

lemma cargarTabla_cons_some {α : Type} (getId : α → ℕ) (acc : List α)
    (x : α) (rows : List (Option α)) :
    cargarTabla getId acc (some x :: rows) =
      cargarTabla getId (insertOrReplace getId acc x) rows := rfl

lemma cargarTabla_map_some {α : Type} (getId : α → ℕ) (l : List α) :
    ∀ acc : List α, (∀ y ∈ acc, ∀ x ∈ l, getId y ≠ getId x) →
      (l.map getId).Nodup →
      cargarTabla getId acc (l.map some) = acc ++ l := by
  induction l with
  | nil => intro acc _ _; simp [cargarTabla]
  | cons x l ih =>
    intro acc hdisj hnd
    rw [List.map_cons, List.nodup_cons] at hnd
    rw [List.map_cons, cargarTabla_cons_some]
    have hany : acc.any (fun y => getId y == getId x) = false := by
      rw [List.any_eq_false]
      intro y hy
      simp only [beq_iff_eq]
      exact hdisj y hy x (List.mem_cons_self x l)
    have hstep : insertOrReplace getId acc x = acc ++ [x] := by
      unfold insertOrReplace
      rw [hany]
      simp
    rw [hstep]
    have hdisj' : ∀ y ∈ acc ++ [x], ∀ z ∈ l, getId y ≠ getId z := by
      intro y hy z hz
      rcases List.mem_append.mp hy with h | h
      · exact hdisj y h z (List.mem_cons_of_mem x hz)
      · rcases List.mem_singleton.mp h with rfl
        intro he
        exact hnd.1 (he ▸ List.mem_map_of_mem getId hz)
    rw [ih (acc ++ [x]) hdisj' hnd.2, List.append_assoc,
      List.singleton_append]

/-- C8: exporting the full store and importing the export into the empty
store reproduces every exported table's rows exactly (in particular the
same row set), and a malformed/unresolvable row in an import is skipped
individually, leaving the rest of the import unaffected. -/
theorem C8_export_import_roundtrip :
    (∀ db : Database,
      (db.movimientos.map (fun m => m.id)).Nodup →
      (db.suscripciones.map (fun s => s.id)).Nodup →
      (db.prestamos.map (fun p => p.id)).Nodup →
      (db.ahorros.map (fun a => a.id)).Nodup →
      (db.creditos.map (fun c => c.id)).Nodup →
      (db.cuentas_bancarias.map (fun c => c.id)).Nodup →
      (db.presupuestos.map (fun p => p.id)).Nodup →
      (importar_datos emptyDatabase (exportar_datos db)).1.movimientos =
          db.movimientos ∧
        (importar_datos emptyDatabase
            (exportar_datos db)).1.suscripciones = db.suscripciones ∧
        (importar_datos emptyDatabase (exportar_datos db)).1.prestamos =
          db.prestamos ∧
        (importar_datos emptyDatabase (exportar_datos db)).1.ahorros =
          db.ahorros ∧
        (importar_datos emptyDatabase (exportar_datos db)).1.creditos =
          db.creditos ∧
        (importar_datos emptyDatabase
            (exportar_datos db)).1.cuentas_bancarias =
          db.cuentas_bancarias ∧
        (importar_datos emptyDatabase
            (exportar_datos db)).1.presupuestos = db.presupuestos) ∧
    (∀ (α : Type) (getId : α → ℕ) (acc : List α)
        (l1 l2 : List (Option α)),
      cargarTabla getId acc (l1 ++ none :: l2) =
        cargarTabla getId acc (l1 ++ l2)) := by
  constructor
  · intro db h1 h2 h3 h4 h5 h6 h7
    have hempty : ∀ (α : Type) (getId : α → ℕ) (l : List α),
        (l.map getId).Nodup →
        cargarTabla getId [] (l.map some) = l := by
      intro α getId l hnd
      rw [cargarTabla_map_some getId l []
        (fun y hy => absurd hy (List.not_mem_nil y)) hnd,
        List.nil_append]
    simp only [importar_datos, exportar_datos, emptyDatabase]
    exact ⟨hempty _ _ _ h1, hempty _ _ _ h2, hempty _ _ _ h3,
      hempty _ _ _ h4, hempty _ _ _ h5, hempty _ _ _ h6, hempty _ _ _ h7⟩
  · exact fun α getId acc l1 l2 => cargarTabla_skip_none getId acc l1 l2

theorem C8_export_import_roundtrip_witness :
    (importar_datos emptyDatabase (exportar_datos
      { emptyDatabase with
          movimientos := [⟨1, "ingreso", "Otro", 5, "x", "2024-01-01"⟩],
          ahorros := [⟨1, "viaje", 10, 4, "f", false⟩,
            ⟨2, "auto", 20, 0, "f", false⟩] })).1.movimientos =
      [⟨1, "ingreso", "Otro", 5, "x", "2024-01-01"⟩] ∧
    (importar_datos emptyDatabase (exportar_datos
      { emptyDatabase with
          movimientos := [⟨1, "ingreso", "Otro", 5, "x", "2024-01-01"⟩],
          ahorros := [⟨1, "viaje", 10, 4, "f", false⟩,
            ⟨2, "auto", 20, 0, "f", false⟩] })).1.ahorros =
      [⟨1, "viaje", 10, 4, "f", false⟩, ⟨2, "auto", 20, 0, "f", false⟩] :=
  have h := C8_export_import_roundtrip.1
    { emptyDatabase with
        movimientos := [⟨1, "ingreso", "Otro", 5, "x", "2024-01-01"⟩],
        ahorros := [⟨1, "viaje", 10, 4, "f", false⟩,
          ⟨2, "auto", 20, 0, "f", false⟩] }
    (by decide) (by decide) (by decide) (by decide) (by decide)
    (by decide) (by decide)
  ⟨h.1, h.2.2.2.1⟩

end JFinanzas
